import Mathlib

/-!
Verification development for the reference-rates coverage script
(`Rates_update.py`).  The script is a single linear batch job:
it reads the previous run's CSV to recover factsheet links, fetches the
instrument list from a rates API, normalizes each USD-quoted record into a
12-column row, prepends a hand-maintained fixed catalog of 54 rows, sorts
the API rows by ticker, filters out rows whose Exchanges column mentions
Coinbase, and writes a main CSV plus a factsheet-only CSV.

The embedding below is a shallow model of that script.  Rows are
`List String` (the script uses positional 12-tuples); external HTTP
collaborators are modelled as explicit response values carried in an
`Env` structure; `datetime.utcnow()` is an explicit `Timestamp` argument;
writing the CSV files is modelled by returning their contents.  String
operations are re-implemented structurally over `List Char` with the
semantics of the corresponding Python `str` methods, because the built-in
`String` operations do not reduce in the kernel.
-/

/-- Model of Python `str.upper` (ASCII letters; the data never contains
non-ASCII cased characters). -/
def pyUpper (s : String) : String :=
  ⟨s.data.map Char.toUpper⟩

/-- Model of Python `str.lower` (ASCII letters). -/
def pyLower (s : String) : String :=
  ⟨s.data.map Char.toLower⟩

/-- Does `pat` occur at the head of `l`? -/
def leadMatch : List Char → List Char → Bool
  | [], _ => true
  | _ :: _, [] => false
  | c :: cs, d :: ds => c == d && leadMatch cs ds

/-- Occurrence test anywhere in `l`.  With a nonempty pattern this is
Python's `pat in s`; Python also returns `True` for the empty pattern,
as does this function. -/
def containsList (pat : List Char) : List Char → Bool
  | [] => leadMatch pat []
  | l@(_ :: rest) => leadMatch pat l || containsList pat rest

/-- Model of Python `pat in s` (substring containment). -/
def pyContains (s pat : String) : Bool :=
  containsList pat.data s.data

/-- One left-to-right, non-overlapping replacement pass over a character
list, with explicit fuel (the caller passes the list length, which is
always sufficient for a nonempty pattern). -/
def replaceList (pat rep : List Char) : Nat → List Char → List Char
  | _, [] => []
  | 0, l => l
  | Nat.succ n, l@(c :: cs) =>
    if pat ≠ [] && leadMatch pat l then
      rep ++ replaceList pat rep n (l.drop pat.length)
    else
      c :: replaceList pat rep n cs

/-- Model of Python `s.replace(pat, rep)` for a nonempty `pat`:
replaces every non-overlapping occurrence, scanning left to right. -/
def pyReplace (s pat rep : String) : String :=
  ⟨replaceList pat.data rep.data s.data.length s.data⟩

/-- Model of Python `s.endswith(suffix)`. -/
def pyEndsWith (s suffix : String) : Bool :=
  leadMatch suffix.data.reverse s.data.reverse

/-- Model of Python `s[:-1]` for nonempty `s` (used after an
`endswith(',')` test, so the string is never empty there). -/
def pyDropLast (s : String) : String :=
  ⟨s.data.take (s.data.length - 1)⟩

/-- Model of Python `str.strip()`: remove leading and trailing
whitespace. -/
def pyStrip (s : String) : String :=
  ⟨(s.data.dropWhile Char.isWhitespace).reverse.dropWhile Char.isWhitespace |>.reverse⟩

/-- Model of Python `sep.join(parts)`. -/
def pyJoin (sep : String) : List String → String
  | [] => ""
  | [x] => x
  | x :: xs => x ++ sep ++ pyJoin sep xs

/-- Lexicographic comparison of character lists by code point: the
ordering Python uses to compare `str` values. -/
def lexLe : List Char → List Char → Bool
  | [], _ => true
  | _ :: _, [] => false
  | c :: cs, d :: ds =>
    if c.toNat = d.toNat then lexLe cs ds else decide (c.toNat < d.toNat)

/-- Model of Python `a <= b` on strings. -/
def pyStrLe (a b : String) : Bool :=
  lexLe a.data b.data

/-- Stable insertion of `x` into `l`: `x` goes before the first element
it compares `le` to.  Together with `pySorted` this reproduces Python's
stable `sorted`. -/
def pyInsert (le : α → α → Bool) (x : α) : List α → List α
  | [] => [x]
  | y :: ys => if le x y then x :: y :: ys else y :: pyInsert le x ys

/-- Model of Python `sorted(l, key=...)` (stable sort) for a total
preorder `le`. -/
def pySorted (le : α → α → Bool) : List α → List α
  | [] => []
  | x :: xs => pyInsert le x (pySorted le xs)

/-- A UTC wall-clock instant, as `datetime.datetime` stores it
(year, month, day, hour, minute, second, microsecond). -/
structure Timestamp where
  year : Nat
  month : Nat
  day : Nat
  hour : Nat
  minute : Nat
  second : Nat
  micro : Nat
deriving DecidableEq, Repr

/-- Model of Python `datetime < datetime`: lexicographic on the seven
components. -/
def tsLt (a b : Timestamp) : Bool :=
  if a.year ≠ b.year then decide (a.year < b.year)
  else if a.month ≠ b.month then decide (a.month < b.month)
  else if a.day ≠ b.day then decide (a.day < b.day)
  else if a.hour ≠ b.hour then decide (a.hour < b.hour)
  else if a.minute ≠ b.minute then decide (a.minute < b.minute)
  else if a.second ≠ b.second then decide (a.second < b.second)
  else decide (a.micro < b.micro)

/-- Number of days in a month, with Gregorian leap years, as
`datetime` validates them. -/
def daysInMonth (y m : Nat) : Nat :=
  if m = 2 then
    if y % 4 = 0 && (y % 100 ≠ 0 || y % 400 = 0) then 29 else 28
  else if m = 4 || m = 6 || m = 9 || m = 11 then 30
  else 31

/-- The calendar day before `(y, m, d)`. -/
def prevDay (y m d : Nat) : Nat × Nat × Nat :=
  if d > 1 then (y, m, d - 1)
  else if m > 1 then (y, m - 1, daysInMonth y (m - 1))
  else (y - 1, 12, 31)

example : pyReplace "abc_def_g" "_" " " = "abc def g" := by rfl
example : pyUpper "usd" = "USD" := by rfl
example : pyContains "x Coinbase y" "Coinbase" = true := by rfl
example : pyContains "N/A" "Coinbase" = false := by rfl
example : pyStrip "  hi , " = "hi ," := by rfl
example : pyEndsWith "link," "," = true := by rfl
example : pyDropLast "link," = "link" := by rfl
example : pySorted pyStrLe ["ZZZ", "AAA", "KT5"] = ["AAA", "KT5", "ZZZ"] := by rfl
example : pyJoin ", " ["Kraken", "LMAX"] = "Kraken, LMAX" := by rfl
example : prevDay 2024 1 3 = (2024, 1, 2) := by rfl
example : prevDay 2024 3 1 = (2024, 2, 29) := by rfl

/-- Are all characters ASCII digits? -/
def allDigits (l : List Char) : Bool :=
  l.all fun c => 48 ≤ c.toNat && c.toNat ≤ 57

/-- Numeric value of a list of ASCII digits. -/
def digitsVal (l : List Char) : Nat :=
  l.foldl (fun acc c => acc * 10 + (c.toNat - 48)) 0

/-- Split a leading run of ASCII digits from the rest. -/
def takeDigits : List Char → List Char × List Char
  | [] => ([], [])
  | c :: cs =>
    if 48 ≤ c.toNat && c.toNat ≤ 57 then
      let p := takeDigits cs
      (c :: p.1, p.2)
    else ([], c :: cs)

/-- Parse the `.%fZ` tail of a fractional-seconds timestamp: a dot, one
to six digits, then a final `Z`.  Returns the microsecond value
(`strptime` right-pads `%f` to six digits). -/
def parseMicro : List Char → Option Nat
  | '.' :: rest =>
    let p := takeDigits rest
    if p.2 = ['Z'] && 1 ≤ p.1.length && p.1.length ≤ 6 then
      some (digitsVal p.1 * 10 ^ (6 - p.1.length))
    else none
  | _ => none

/-- Model of `datetime.strptime(s, '%Y-%m-%dT%H:%M:%S.%fZ')` (when
`withFrac` is true) and of `datetime.strptime(s, '%Y-%m-%dT%H:%M:%SZ')`
(when it is false): `none` models the `ValueError`.  Field widths are the
zero-padded ones the API emits; ranges are validated as `datetime`
does. -/
def parseTimestamp (withFrac : Bool) (s : String) : Option Timestamp :=
  match s.data with
  | y1 :: y2 :: y3 :: y4 :: '-' :: m1 :: m2 :: '-' :: d1 :: d2 :: 'T' ::
    h1 :: h2 :: ':' :: n1 :: n2 :: ':' :: s1 :: s2 :: rest =>
    if allDigits [y1, y2, y3, y4, m1, m2, d1, d2, h1, h2, n1, n2, s1, s2] then
      let year := digitsVal [y1, y2, y3, y4]
      let month := digitsVal [m1, m2]
      let day := digitsVal [d1, d2]
      let hour := digitsVal [h1, h2]
      let minute := digitsVal [n1, n2]
      let second := digitsVal [s1, s2]
      let micro? : Option Nat :=
        if withFrac then parseMicro rest
        else if rest = ['Z'] then some 0 else none
      match micro? with
      | none => none
      | some micro =>
        if 1 ≤ month && month ≤ 12 && 1 ≤ day && day ≤ daysInMonth year month
            && hour ≤ 23 && minute ≤ 59 && second ≤ 59 then
          some ⟨year, month, day, hour, minute, second, micro⟩
        else none
    else none
  | _ => none

/-- English month name, as `strftime('%B')` renders it. -/
def monthName : Nat → String
  | 1 => "January"
  | 2 => "February"
  | 3 => "March"
  | 4 => "April"
  | 5 => "May"
  | 6 => "June"
  | 7 => "July"
  | 8 => "August"
  | 9 => "September"
  | 10 => "October"
  | 11 => "November"
  | 12 => "December"
  | _ => ""

/-- Zero-padded two-digit rendering, as `strftime('%d')` pads days. -/
def pad2 (n : Nat) : String :=
  if n < 10 then "0" ++ Nat.repr n else Nat.repr n

/-- Model of `strftime('%B %d, %Y')`. -/
def formatLongDate (t : Timestamp) : String :=
  monthName t.month ++ " " ++ pad2 t.day ++ ", " ++ Nat.repr t.year

/-- Embedding of `parse_date` (Rates_update.py lines 12-17): try the
fractional-seconds format, fall back to the non-fractional one, and
render `'%B %d, %Y'`.  `none` models the uncaught `ValueError` when
neither format parses. -/
def parse_date (date_string : String) : Option String :=
  match parseTimestamp true date_string with
  | some t => some (formatLongDate t)
  | none =>
    match parseTimestamp false date_string with
    | some t => some (formatLongDate t)
    | none => none

/-- Embedding of `get_normalized_family` (lines 19-33): collapse the raw
benchmark-family code into the published grouping by exact string
comparison. -/
def get_normalized_family (family_type : String) : String :=
  if family_type ∈ (["Thematic", "Sector"] : List String) then
    "Sector & Thematic"
  else if family_type ∈ (["Custom_Rate", "Benchmark_Reference_Rate", "Reference_Rate"] : List String) then
    "Single-Asset"
  else
    family_type

/-- Insertion into a Python `dict` modelled as an ordered association
list: an existing key keeps its position and gets the new value, a new
key is appended. -/
def dictInsert : List (String × String) → String → String → List (String × String)
  | [], k, v => [(k, v)]
  | (k', v') :: rest, k, v =>
    if k' == k then (k, v) :: rest else (k', v') :: dictInsert rest k v

/-- Lookup in the association-list model of a Python `dict`. -/
def dictGet? : List (String × String) → String → Option String
  | [], _ => none
  | (k', v') :: rest, k => if k' == k then some v' else dictGet? rest k

/-- The duplicated anchor markup the script repairs. -/
def doubleHref : String := "<a href=\"<a href=\""

/-- A single opening anchor tag. -/
def singleHref : String := "<a href=\""

/-- Embedding of `get_existing_fact_sheets` (lines 35-65).  The prior
CSV is modelled as the list of its `(Ticker, factsheet-column)` pairs in
file order; file-existence and the `Factsheet`/`Fact Sheet` header
tolerance are I/O mechanics outside the model.  Each value is stripped,
one trailing comma is removed, empty values are skipped, duplicated
`<a href="<a href="` markup is collapsed by one `str.replace` pass, and
the result is keyed by ticker in a dict (later rows win). -/
def get_existing_fact_sheets (priorRows : List (String × String)) : List (String × String) :=
  priorRows.foldl (fun fact_sheets row =>
    let value := pyStrip row.2
    let value := if pyEndsWith value "," then pyDropLast value else value
    if value ≠ "" then
      let value :=
        if pyContains value doubleHref then pyReplace value doubleHref singleHref
        else value
      dictInsert fact_sheets row.1 value
    else fact_sheets) []

example : parse_date "2023-10-17T00:00:00.000000Z" = some "October 17, 2023" := by rfl
example : parse_date "2023-10-17T00:00:00Z" = some "October 17, 2023" := by rfl
example : parse_date "garbage" = none := by rfl
example : get_normalized_family "Thematic" = "Sector & Thematic" := by rfl
example : get_normalized_family "Reference_Rate" = "Single-Asset" := by rfl
example : get_existing_fact_sheets [("T", "  x, ")] = [("T", "x")] := by rfl
example :
    get_existing_fact_sheets [("T", "<a href=\"<a href=\"u\">x</a>")] =
      [("T", "<a href=\"u\">x</a>")] := by rfl
/-- Factsheet literal `factsheet_blue_chip` from `get_fixed_entries` (lines 69-71). -/
def factsheet_blue_chip : String :=
  "<a href=\"https://marketing.kaiko.com/hubfs/Factsheets%20and%20Methodologies/New%20Benchmark%20Factsheets/Kaiko%20Benchmarks%20-%20Blue-Chip%20family%20factsheet.pdf\" target=\"_blank\">View Factsheet</a>"

/-- Factsheet literal `factsheet_sector_thematic` from `get_fixed_entries` (lines 69-71). -/
def factsheet_sector_thematic : String :=
  "<a href=\"https://marketing.kaiko.com/hubfs/Factsheets%20and%20Methodologies/New%20Benchmark%20Factsheets/Kaiko%20Benchmarks%20-%20Sector%20&%20Thematic%20family%20factsheet.pdf\" target=\"_blank\">View Factsheet</a>"

/-- Factsheet literal `factsheet_market` from `get_fixed_entries` (lines 69-71). -/
def factsheet_market : String :=
  "<a href=\"https://marketing.kaiko.com/hubfs/Factsheets%20and%20Methodologies/New%20Benchmark%20Factsheets/Kaiko%20Benchmarks%20-%20Market%20family%20factsheet.pdf\" target=\"_blank\">View Factsheet</a>"

/-- Embedding of `get_fixed_entries` (lines 67-151): the hand-maintained
catalog of always-present index rows, in source order (69 tuples; the
source comment says 54 but the literal list has 69).  Each row is the
12-tuple (Brand, Benchmark Family, Name, Ticker, Base, Quote,
Dissemination, Launch Date, Inception Date, Exchanges, Calculation Window,
Factsheet) as a `List String`. -/
def get_fixed_entries : List (List String) :=
  [
   ["Kaiko", "Blue-Chip", "Kaiko Eagle Index", "EGLX", "N/A", "N/A", "NYC Fixing",
    "February 11, 2025", "February 11, 2025", "-", "-", factsheet_blue_chip],
   ["Kaiko", "Blue-Chip", "Kaiko Eagle Index", "EGLXRT", "N/A", "N/A", "Real-time (5 sec)",
    "February 11, 2025", "February 11, 2025", "-", "-", factsheet_blue_chip],
   ["Kaiko", "Blue-Chip", "Kaiko 5 Index", "KT5", "N/A", "N/A", "Real-time (5 sec)",
    "October 17, 2023", "March 19, 2018", "-", "-", factsheet_blue_chip],
   ["Kaiko", "Blue-Chip", "Kaiko 5 Index NYC", "KT5NYC", "N/A", "N/A", "NYC Fixing",
    "October 17, 2023", "March 19, 2018", "-", "-", factsheet_blue_chip],
   ["Kaiko", "Blue-Chip", "Kaiko 5 Index LDN", "KT5LDN", "N/A", "N/A", "LDN Fixing",
    "October 17, 2023", "March 19, 2018", "-", "-", factsheet_blue_chip],
   ["Kaiko", "Blue-Chip", "Kaiko 5 Index SGP", "KT5SGP", "N/A", "N/A", "SGP Fixing",
    "October 17, 2023", "March 19, 2018", "-", "-", factsheet_blue_chip],
   ["Kaiko", "Blue-Chip", "Kaiko 10 Index", "KT10", "N/A", "N/A", "Real-time (5 sec)",
    "October 17, 2023", "March 18, 2019", "-", "-", factsheet_blue_chip],
   ["Kaiko", "Blue-Chip", "Kaiko 10 Index NYC", "KT10NYC", "N/A", "N/A", "NYC Fixing",
    "October 17, 2023", "March 18, 2019", "-", "-", factsheet_blue_chip],
   ["Kaiko", "Blue-Chip", "Kaiko 10 Index LDN", "KT10LDN", "N/A", "N/A", "LDN Fixing",
    "October 17, 2023", "March 18, 2019", "-", "-", factsheet_blue_chip],
   ["Kaiko", "Blue-Chip", "Kaiko 10 Index SGP", "KT10SGP", "N/A", "N/A", "SGP Fixing",
    "October 17, 2023", "March 18, 2019", "-", "-", factsheet_blue_chip],
   ["Kaiko", "Blue-Chip", "Kaiko 15 Index", "KT15", "N/A", "N/A", "Real-time (5 sec)",
    "October 17, 2023", "December 23, 2019", "-", "-", factsheet_blue_chip],
   ["Kaiko", "Blue-Chip", "Kaiko 15 Index NYC", "KT15NYC", "N/A", "N/A", "NYC Fixing",
    "October 17, 2023", "December 23, 2019", "-", "-", factsheet_blue_chip],
   ["Kaiko", "Blue-Chip", "Kaiko 15 Index LDN", "KT15LDN", "N/A", "N/A", "LDN Fixing",
    "October 17, 2023", "December 23, 2019", "-", "-", factsheet_blue_chip],
   ["Kaiko", "Blue-Chip", "Kaiko 15 Index SGP", "KT15SGP", "N/A", "N/A", "SGP Fixing",
    "October 17, 2023", "December 23, 2019", "-", "-", factsheet_blue_chip],
   ["Kaiko", "Blue-Chip", "Vinter 21Shares Crypto Basket Equal Weight Index ", "HODLV", "N/A", "N/A", "LDN Fixing",
    "September 29, 2021", "January 01, 2021", "-", "-", "<a href=\"https://marketing.kaiko.com/hubfs/Factsheets%20and%20Methodologies/multi-asset_hodlv_end=2025-03-12&start=2020-12-31.pdf\" target=\"_blank\">View Factsheet</a>"],
   ["Kaiko", "Blue-Chip", "Vinter 21Shares Crypto Basket 10 Index", "HODLX", "N/A", "N/A", "LDN Fixing",
    "September 29, 2021", "January 01, 2021", "-", "-", "<a target=\"_blank\">Coming Soon</a>"],
   ["Kaiko", "Blue-Chip", "Vinter Valour Digital Asset Basket 10 Index", "VDAB10", "N/A", "N/A", "LDN Fixing",
    "July 21, 2022", "January 01, 2021", "-", "-", "<a href=\"https://marketing.kaiko.com/hubfs/Factsheets%20and%20Methodologies/VDAB10%20-%20Fact%20Sheet%20-%20multi-asset_vdab10_end=2025-03-12&start=2020-12-31.pdf\" target=\"_blank\">View Factsheet</a>"],
   ["Kaiko", "Blue-Chip", "Vinter Pando Crypto Basket 6 Index ", "PANDO6", "N/A", "N/A", "17:00 CET Fixing",
    "July 21, 2022", "January 01, 2021", "-", "-", "<a href=\"https://marketing.kaiko.com/hubfs/Factsheets%20and%20Methodologies/PANDO6%20-%20Fact%20Sheet%20-%20multi-asset_pando6_end=2025-03-12&start=2020-12-31.pdf\" target=\"_blank\">View Factsheet</a>"],
   ["Kaiko", "Blue-Chip", "Virtune Vinter Crypto Top 10 Index", "VVT10", "N/A", "N/A", "17:00 CET Fixing",
    "March 31, 2023", "January 01, 2021", "-", "-", "<a href=\"https://marketing.kaiko.com/hubfs/Factsheets%20and%20Methodologies/VVT10%20-%20Fact%20Sheet%20-%20multi-asset_vvt10_end=2025-03-12&start=2020-12-31.pdf\" target=\"_blank\">View Factsheet</a>"],
   ["Kaiko", "Sector & Thematic", "Kaiko Tokenization Index", "KSTKNZ", "N/A", "N/A", "Real-time (5 sec)",
    "January 23, 2025", "January 3, 2022", "-", "-", factsheet_sector_thematic],
   ["Kaiko", "Sector & Thematic", "Kaiko Tokenization Index NYC", "KSTKNZNYC", "N/A", "N/A", "NYC Fixing",
    "January 23, 2025", "January 3, 2022", "-", "-", factsheet_sector_thematic],
   ["Kaiko", "Sector & Thematic", "Kaiko Tokenization Index LDN", "KSTKNZLDN", "N/A", "N/A", "LDN Fixing",
    "January 23, 2025", "January 3, 2022", "-", "-", factsheet_sector_thematic],
   ["Kaiko", "Sector & Thematic", "Kaiko Tokenization Index SGP", "KSTKNZSGP", "N/A", "N/A", "SGP Fixing",
    "January 23, 2025", "January 3, 2022", "-", "-", factsheet_sector_thematic],
   ["Kaiko", "Sector & Thematic", "Kaiko AI Index", "KSAI", "N/A", "N/A", "Real-time (5 sec)",
    "January 23, 2025", "October 3, 2022", "-", "-", factsheet_sector_thematic],
   ["Kaiko", "Sector & Thematic", "Kaiko AI Index NYC", "KSAINYC", "N/A", "N/A", "NYC Fixing",
    "January 23, 2025", "October 3, 2022", "-", "-", factsheet_sector_thematic],
   ["Kaiko", "Sector & Thematic", "Kaiko AI Index LDN", "KSAILDN", "N/A", "N/A", "LDN Fixing",
    "January 23, 2025", "October 3, 2022", "-", "-", factsheet_sector_thematic],
   ["Kaiko", "Sector & Thematic", "Kaiko AI Index SGP", "KSAISGP", "N/A", "N/A", "SGP Fixing",
    "January 23, 2025", "October 3, 2022", "-", "-", factsheet_sector_thematic],
   ["Kaiko", "Sector & Thematic", "Kaiko Meme Index", "KSMEME", "N/A", "N/A", "Real-time (5 sec)",
    "January 22, 2025", "April 3, 2023", "-", "-", factsheet_sector_thematic],
   ["Kaiko", "Sector & Thematic", "Kaiko Meme Index NYC", "KSMEMENYC", "N/A", "N/A", "NYC Fixing",
    "January 22, 2025", "April 3, 2023", "-", "-", factsheet_sector_thematic],
   ["Kaiko", "Sector & Thematic", "Kaiko Meme Index LDN", "KSMEMELDN", "N/A", "N/A", "LDN Fixing",
    "January 22, 2025", "April 3, 2023", "-", "-", factsheet_sector_thematic],
   ["Kaiko", "Sector & Thematic", "Kaiko Meme Index SGP", "KSMEMESGP", "N/A", "N/A", "SGP Fixing",
    "January 22, 2025", "April 3, 2023", "-", "-", factsheet_sector_thematic],
   ["Kaiko", "Sector & Thematic", "Kaiko DeFi Index", "KSDEFI", "N/A", "N/A", "Real-time (5 sec)",
    "January 17, 2025", "April 3, 2023", "-", "-", factsheet_sector_thematic],
   ["Kaiko", "Sector & Thematic", "Kaiko DeFi Index NYC", "KSDEFINYC", "N/A", "N/A", "NYC Fixing",
    "January 17, 2025", "April 3, 2023", "-", "-", factsheet_sector_thematic],
   ["Kaiko", "Sector & Thematic", "Kaiko DeFi Index LDN", "KSDEFILDN", "N/A", "N/A", "LDN Fixing",
    "January 17, 2025", "April 3, 2023", "-", "-", factsheet_sector_thematic],
   ["Kaiko", "Sector & Thematic", "Kaiko DeFi Index SGP", "KSDEFISGP", "N/A", "N/A", "SGP Fixing",
    "January 17, 2025", "April 3, 2023", "-", "-", factsheet_sector_thematic],
   ["Kaiko", "Sector & Thematic", "Kaiko L2 Index", "KSL2", "N/A", "N/A", "Real-time (5 sec)",
    "July 2, 2024", "April 3, 2023", "-", "-", factsheet_sector_thematic],
   ["Kaiko", "Sector & Thematic", "Kaiko L2 Index NYC", "KSL2NYC", "N/A", "N/A", "NYC Fixing",
    "July 2, 2024", "April 3, 2023", "-", "-", factsheet_sector_thematic],
   ["Kaiko", "Sector & Thematic", "Kaiko L2 Index LDN", "KSL2LDN", "N/A", "N/A", "LDN Fixing",
    "July 2, 2024", "April 3, 2023", "-", "-", factsheet_sector_thematic],
   ["Kaiko", "Sector & Thematic", "Kaiko L2 Index SGP", "KSL2SGP", "N/A", "N/A", "SGP Fixing",
    "July 2, 2024", "April 3, 2023", "-", "-", factsheet_sector_thematic],
   ["Kaiko", "Sector & Thematic", "Vinter Cardano Yield Index ", "CASL", "N/A", "N/A", "LDN Fixing",
    "November 10, 2022", "March 06, 2024", "-", "-", "<a href=\"https://marketing.kaiko.com/hubfs/Factsheets%20and%20Methodologies/CASL%20-%20Fact%20Sheet%20-%20multi-asset_casl_end=2025-03-12&start=2020-12-31.pdf\" target=\"_blank\">View Factsheet</a>"],
   ["Kaiko", "Sector & Thematic", "Sygnum Platform Winners Index ", "MOON", "N/A", "N/A", "17:00 CET Fixing",
    "July 21, 2022", "November 01, 2019", "-", "-", "<a href=\"https://marketing.kaiko.com/hubfs/Factsheets%20and%20Methodologies/MOON%20-%20Fact%20Sheet%20-%20multi-asset_moon_end=2025-03-12&start=2020-12-31.pdf\" target=\"_blank\">View Factsheet</a>"],
   ["Kaiko", "Sector & Thematic", "Vinter CF Crypto Web3 Index", "VCFWB3", "N/A", "N/A", "LDN Fixing",
    "May 15, 2023", "January 01, 2021", "-", "-", "<a href=\"https://marketing.kaiko.com/hubfs/Factsheets%20and%20Methodologies/VCFWB3%20-%20Fact%20Sheet%20-multi-asset_vcfwb3_end=2025-03-12&start=2020-12-31.pdf\" target=\"_blank\">View Factsheet</a>"],
   ["Kaiko", "Market", "Kaiko Standard Index", "KMSTA", "N/A", "N/A", "Real-time (5 sec)",
    "January 23, 2025", "April 1, 2014", "-", "-", factsheet_market],
   ["Kaiko", "Market", "Kaiko Standard Index NYC", "KMSTANYC", "N/A", "N/A", "NYC Fixing",
    "January 23, 2025", "April 1, 2014", "-", "-", factsheet_market],
   ["Kaiko", "Market", "Kaiko Standard Index LDN", "KMSTALDN", "N/A", "N/A", "LDN Fixing",
    "January 23, 2025", "April 1, 2014", "-", "-", factsheet_market],
   ["Kaiko", "Market", "Kaiko Standard Index SGP", "KMSTASGP", "N/A", "N/A", "SGP Fixing",
    "January 23, 2025", "April 1, 2014", "-", "-", factsheet_market],
   ["Kaiko", "Market", "Kaiko Small Cap Index", "KMSMA", "N/A", "N/A", "Real-time (5 sec)",
    "January 23, 2025", "January 2, 2015", "-", "-", factsheet_market],
   ["Kaiko", "Market", "Kaiko Small Cap Index NYC", "KMSMANYC", "N/A", "N/A", "NYC Fixing",
    "January 23, 2025", "January 2, 2015", "-", "-", factsheet_market],
   ["Kaiko", "Market", "Kaiko Small Cap Index LDN", "KMSMALDN", "N/A", "N/A", "LDN Fixing",
    "January 23, 2025", "January 2, 2015", "-", "-", factsheet_market],
   ["Kaiko", "Market", "Kaiko Small Cap Index SGP", "KMSMASGP", "N/A", "N/A", "SGP Fixing",
    "January 23, 2025", "January 2, 2015", "-", "-", factsheet_market],
   ["Kaiko", "Market", "Kaiko Mid Cap Index", "KMMID", "N/A", "N/A", "Real-time (5 sec)",
    "January 23, 2025", "April 2, 2018", "-", "-", factsheet_market],
   ["Kaiko", "Market", "Kaiko Mid Cap Index NYC", "KMMIDNYC", "N/A", "N/A", "NYC Fixing",
    "January 23, 2025", "April 2, 2018", "-", "-", factsheet_market],
   ["Kaiko", "Market", "Kaiko Mid Cap Index LDN", "KMMIDLDN", "N/A", "N/A", "LDN Fixing",
    "January 23, 2025", "April 2, 2018", "-", "-", factsheet_market],
   ["Kaiko", "Market", "Kaiko Mid Cap Index SGP", "KMMIDSGP", "N/A", "N/A", "SGP Fixing",
    "January 23, 2025", "April 2, 2018", "-", "-", factsheet_market],
   ["Kaiko", "Market", "Kaiko Large Cap Index", "KMLAR", "N/A", "N/A", "Real-time (5 sec)",
    "January 23, 2025", "April 1, 2014", "-", "-", factsheet_market],
   ["Kaiko", "Market", "Kaiko Large Cap Index NYC", "KMLARNYC", "N/A", "N/A", "NYC Fixing",
    "January 23, 2025", "April 1, 2014", "-", "-", factsheet_market],
   ["Kaiko", "Market", "Kaiko Large Cap Index LDN", "KMLARLDN", "N/A", "N/A", "LDN Fixing",
    "January 23, 2025", "April 1, 2014", "-", "-", factsheet_market],
   ["Kaiko", "Market", "Kaiko Large Cap Index SGP", "KMLARSGP", "N/A", "N/A", "SGP Fixing",
    "January 23, 2025", "April 1, 2014", "-", "-", factsheet_market],
   ["Kaiko", "Market", "Kaiko Investable Index", "KMINV", "N/A", "N/A", "Real-time (5 sec)",
    "January 23, 2025", "April 1, 2014", "-", "-", factsheet_market],
   ["Kaiko", "Market", "Kaiko Investable Index NYC", "KMINVNYC", "N/A", "N/A", "NYC Fixing",
    "January 23, 2025", "April 1, 2014", "-", "-", factsheet_market],
   ["Kaiko", "Market", "Kaiko Investable Index LDN", "KMINVLDN", "N/A", "N/A", "LDN Fixing",
    "January 23, 2025", "April 1, 2014", "-", "-", factsheet_market],
   ["Kaiko", "Market", "Kaiko Investable Index SGP", "KMINVSGP", "N/A", "N/A", "SGP Fixing",
    "January 23, 2025", "April 1, 2014", "-", "-", factsheet_market],
   ["Kaiko", "Market", "Vinter 21Shares Crypto Mid-Cap Index ", "ALTS", "N/A", "N/A", "LDN Fixing",
    "December 14, 2021", "January 01, 2021", "-", "-", "<a href=\"https://marketing.kaiko.com/hubfs/Factsheets%20and%20Methodologies/ALTS%20-%20Fact%20Sheet%20-%20multi-asset_alts_end=2025-03-12&start=2020-12-31.pdf\" target=\"_blank\">View Factsheet</a>"],
   ["Kaiko", "Market", "Vinter 21Shares Crypto Staking Index ", "STAKE", "N/A", "N/A", "LDN Fixing",
    "January 18, 2023", "January 01, 2021", "-", "-", "<a href=\"https://marketing.kaiko.com/hubfs/Factsheets%20and%20Methodologies/multi-asset_stake_end=2025-03-12&start=2020-12-31.pdf\" target=\"_blank\">View Factsheet</a>"],
   ["Kaiko", "Market", "Vinter BOLD Index", "VBNGD", "N/A", "N/A", "LDN Fixing",
    "November 10, 2023", "January 01, 2020", "-", "-", "<a href=\"https://marketing.kaiko.com/hubfs/Factsheets%20and%20Methodologies/VBNGD%20-%20Fact%20Sheet%20-%20multi-asset_vbngd_end=2025-03-12&start=2020-12-31.pdf\" target=\"_blank\">View Factsheet</a>"],
   ["Kaiko", "Market", "Vinter CF Crypto Momentum Index", "VCFMOM", "N/A", "N/A", "LDN Fixing",
    "May 15, 2023", "January 01, 2021", "-", "-", "<a href=\"https://marketing.kaiko.com/hubfs/Factsheets%20and%20Methodologies/VCFMOM%20-%20Fact%20Sheet%20-multi-asset_vcfmom_end=2025-03-12&start=2020-12-31.pdf\" target=\"_blank\">View Factsheet</a>"],
   ["Kaiko", "Market", "Vinter Diffuse Digital 30 Index", "DDV", "N/A", "N/A", "LDN Fixing",
    "July 02, 2022", "January 01, 2021", "-", "-", "<a href=\"https://marketing.kaiko.com/hubfs/Factsheets%20and%20Methodologies/DDV%20-%20Fact%20Sheet%20-%20multi-asset_ddv_end=2025-03-12&start=2020-12-31.pdf\" target=\"_blank\">View Factsheet</a>"],
   ["Kaiko", "Market", "Vinter Hashdex Risk Parity Momentum Crypto Index", "VHASHMOM", "N/A", "N/A", "17:00 CET Fixing",
    "September 05, 2022", "January 01, 2021", "-", "-", "<a href=\"https://marketing.kaiko.com/hubfs/VHASHMOM%20Kaiko%20Factsheet.pdf\" target=\"_blank\">View Factsheet</a>"],
   ["Kaiko", "Market", "Vinter Bytetree BOLD1 Inverse Volatility Index", "BOLD1", "N/A", "N/A", "LDN Fixing",
    "November 10, 2023", "January 01, 2020", "-", "-", "<a target=\"_blank\">Coming Soon</a>"]
  ]
example : get_fixed_entries.length = 69 := by rfl

/-- One element of the exchange reference API's `data` array (fields
`code` and `name`). -/
structure ExchangeEntry where
  code : String
  name : String

/-- Model of the exchange reference API response used by
`get_exchange_name_mappings`: HTTP status, the `result` field and the
`data` array.  A network failure is modelled as a non-200 status (both
return `{}` in the source). -/
structure ExchangeResp where
  statusCode : Nat
  result : String
  data : List ExchangeEntry

/-- Embedding of `get_exchange_name_mappings` (lines 153-223): on any
failure return an empty mapping, otherwise map each lowercased exchange
code to its display name, with the special case `crco -> Crypto.com`. -/
def get_exchange_name_mappings (resp : ExchangeResp) : List (String × String) :=
  if resp.statusCode ≠ 200 then []
  else if resp.result ≠ "success" then []
  else
    resp.data.foldl (fun mappings exchange =>
      let code := pyLower exchange.code
      if code == "crco" then dictInsert mappings code "Crypto.com"
      else dictInsert mappings code exchange.name) []

/-- The `parameters` object of the most recent data point returned by
the per-ticker price endpoint: the `exchanges` code list (a missing
field and an empty list are both falsy in the source and are both
modelled as `[]`) and the optional `calc_window` seconds. -/
structure PriceParams where
  exchanges : List String
  calcWindow : Option Int

/-- One element of the price endpoint's `data` array. -/
structure PriceInterval where
  parameters : Option PriceParams

/-- Model of the per-ticker price endpoint response: HTTP status, the
optional top-level `time` field, and the `data` array. -/
structure PriceResp where
  statusCode : Nat
  time : Option String
  data : List PriceInterval

/-- Embedding of `fetch_historical_prices_data` (lines 225-345).
Returns the `(Exchanges, Calculation Window)` column pair: placeholders
`('-', '-')` when the key is missing, the type is not rate-like, the
call fails or yields no data; `('EXCLUDE', 'EXCLUDE')` when the
response's `time` parses (fractional format only) to an instant before
yesterday 21:00 UTC relative to `nowUtc` (`datetime.utcnow()`); else
the mapped, sorted, comma-joined exchange names and the `calc_window`
with an `s` suffix. -/
def fetch_historical_prices_data (ticker asset_type api_key : String)
    (exchange_mappings : List (String × String)) (exchangeResp : ExchangeResp)
    (nowUtc : Timestamp) (resp : PriceResp) : String × String :=
  let p := prevDay nowUtc.year nowUtc.month nowUtc.day
  let yesterday_9pm_utc : Timestamp := ⟨p.1, p.2.1, p.2.2, 21, 0, 0, 0⟩
  let exchange_mappings :=
    if exchange_mappings.isEmpty then get_exchange_name_mappings exchangeResp
    else exchange_mappings
  if api_key == "" then ("-", "-")
  else if asset_type ∉ (["Reference_Rate", "Benchmark_Reference_Rate", "Single-Asset", "Custom_Rate"] : List String) then
    ("-", "-")
  else if resp.statusCode ≠ 200 then ("-", "-")
  else
    let excluded : Bool :=
      match resp.time with
      | some t =>
        match parseTimestamp true t with
        | some publication_time => tsLt publication_time yesterday_9pm_utc
        | none => false
      | none => false
    if excluded then ("EXCLUDE", "EXCLUDE")
    else
      match resp.data with
      | [] => ("-", "-")
      | first_interval :: _ =>
        match first_interval.parameters with
        | none => ("-", "-")
        | some params =>
          let exchanges :=
            if params.exchanges.isEmpty then "-"
            else
              pyJoin ", " ((pySorted pyStrLe params.exchanges).map fun exchange_code =>
                match dictGet? exchange_mappings (pyLower exchange_code) with
                | some mapped_name => mapped_name
                | none => exchange_code)
          let calc_window :=
            match params.calcWindow with
            | some w => toString w ++ "s"
            | none => "-"
          (exchanges, calc_window)

/-- Embedding of `write_filtered_csv` (lines 347-373), returning the
written file's header row and data rows instead of performing I/O:
keep the rows whose last (Factsheet) column is nonempty and not `'-'`,
projected to `item[:10] + [item[-1]]`; the header row is
`headers[:10] + [headers[-1]]`. -/
def write_filtered_csv (items : List (List String)) (headers : List String) :
    List String × List (List String) :=
  let filtered_headers := headers.take 10 ++ [headers.getLastD ""]
  let filtered_items :=
    (items.filter fun item =>
      let last := item.getLastD ""
      last != "" && last != "-" && last != "").map fun item =>
        item.take 10 ++ [item.getLastD ""]
  (filtered_headers, filtered_items)

/-- One element of the rates API's `data` array, flattened: `ticker`,
`type`, `brand`, `short_name`, `dissemination`, `launch_date`,
`inception_date`, `quote.short_name`, `base.short_name`. -/
structure RawItem where
  ticker : String
  itemType : String
  brand : String
  shortName : String
  dissemination : String
  launchDate : String
  inceptionDate : String
  quoteShortName : String
  baseShortName : String
deriving DecidableEq

/-- Model of the rates API response: HTTP status and the `data`
array. -/
structure RatesResp where
  statusCode : Nat
  data : List RawItem

/-- All external inputs of one run: the rates API response, the prior
CSV's `(Ticker, factsheet)` pairs, the exchange reference response, and
the per-ticker price responses. -/
structure Env where
  ratesResp : RatesResp
  priorCsv : List (String × String)
  exchangeResp : ExchangeResp
  priceResp : String → PriceResp

/-- Sequential effectful map: process the items in order and abort on
the first error, as an uncaught exception aborts the source's `for`
loop. -/
def mapME : List α → (α → Except ε β) → Except ε (List β)
  | [], _ => .ok []
  | x :: xs, f =>
    match f x with
    | .error e => .error e
    | .ok y =>
      match mapME xs f with
      | .error e => .error e
      | .ok ys => .ok (y :: ys)

/-- The main CSV header row (lines 393-396). -/
def headersList : List String :=
  ["Brand", "Benchmark Family", "Name", "Ticker", "Base", "Quote",
   "Dissemination", "Launch Date", "Inception Date", "Exchanges",
   "Calculation Window", "Factsheet"]

/-- The USD-quote filter over the API items (lines 416-420). -/
def usdItems (resp : RatesResp) : List RawItem :=
  resp.data.filter fun item => pyUpper item.quoteShortName == "USD"

/-- The body of the per-item loop (lines 427-459): normalize one USD
API item into a 12-column row.  An unparseable launch or inception date
is the uncaught `ValueError` from `parse_date`, modelled as
`Except.error` carrying the offending date string. -/
def processApiItem (existing_fact_sheets exchange_mappings : List (String × String))
    (exchangeResp : ExchangeResp) (priceResp : String → PriceResp)
    (api_key : String) (nowUtc : Timestamp) (item : RawItem) :
    Except String (List String) :=
  let ticker := item.ticker
  let asset_type := item.itemType
  let normalized_family := get_normalized_family asset_type
  let brand := item.brand
  let quote_short_name := pyUpper item.quoteShortName
  let base_short_name := pyUpper item.baseShortName
  let short_name := pyReplace item.shortName "_" " "
  match parse_date item.launchDate with
  | none => .error item.launchDate
  | some launch_date =>
    match parse_date item.inceptionDate with
    | none => .error item.inceptionDate
    | some inception =>
      let fact_sheet := (dictGet? existing_fact_sheets ticker).getD ""
      let fact_sheet :=
        if pyEndsWith fact_sheet "," then pyDropLast fact_sheet else fact_sheet
      let ec := fetch_historical_prices_data ticker asset_type api_key
        exchange_mappings exchangeResp nowUtc (priceResp ticker)
      .ok [brand, normalized_family, short_name, ticker, base_short_name,
           quote_short_name, item.dissemination, launch_date, inception,
           ec.1, ec.2, fact_sheet]

/-- The fixed-catalog pass (lines 463-474): keep each catalog row but
replace its factsheet with the prior run's value when the prior run has
a nonempty one for that ticker (stripping one trailing comma). -/
def fixed_items_with_fact_sheets (existing_fact_sheets : List (String × String)) :
    List (List String) :=
  get_fixed_entries.map fun entry =>
    let ticker := entry.getD 3 ""
    let factsheet := entry.getD 11 ""
    let factsheet :=
      match dictGet? existing_fact_sheets ticker with
      | some v =>
        if v ≠ "" then (if pyEndsWith v "," then pyDropLast v else v)
        else factsheet
      | none => factsheet
    entry.take 11 ++ [factsheet]

/-- The sort key of line 476: ascending ticker (`row[3]`). -/
def tickerLe (a b : List String) : Bool :=
  pyStrLe (a.getD 3 "") (b.getD 3 "")

/-- The Coinbase exclusion predicate (lines 479-487): keep a row unless
its Exchanges column (`item[9]`) contains `"Coinbase"`. -/
def keepRow (item : List String) : Bool :=
  !(pyContains (item.getD 9 "") "Coinbase")

/-- The API half of a run: the per-item loop over the USD-filtered
items, aborted by the first unparseable date. -/
def apiItemsE (env : Env) (api_key : String) (nowUtc : Timestamp) :
    Except String (List (List String)) :=
  mapME (usdItems env.ratesResp)
    (processApiItem (get_existing_fact_sheets env.priorCsv)
      (get_exchange_name_mappings env.exchangeResp) env.exchangeResp
      env.priceResp api_key nowUtc)

/-- The two CSV files a successful run writes. -/
structure WrittenFiles where
  mainHeaders : List String
  mainRows : List (List String)
  factsheetHeaders : List String
  factsheetRows : List (List String)
deriving DecidableEq

/-- Embedding of `pull_and_save_data_to_csv` (lines 375-508).
`Except.error` models the run dying on an uncaught exception (nothing
written); `.ok none` models the non-200 branch (nothing written);
`.ok (some files)` models the two files written at the end of a
successful run. -/
def pull_and_save_data_to_csv (env : Env) (api_key : String) (nowUtc : Timestamp) :
    Except String (Option WrittenFiles) :=
  if env.ratesResp.statusCode = 200 then
    match apiItemsE env api_key nowUtc with
    | .error e => .error e
    | .ok api_items =>
      let existing := get_existing_fact_sheets env.priorCsv
      let fixedW := fixed_items_with_fact_sheets existing
      let all_items := fixedW ++ pySorted tickerLe api_items
      let filtered_items := all_items.filter keepRow
      let wf := write_filtered_csv filtered_items headersList
      .ok (some ⟨headersList, filtered_items, wf.1, wf.2⟩)
  else
    .ok none

/-- The main CSV's data rows of a run result, `[]` when nothing was
written. -/
def mainRowsOf (r : Except String (Option WrittenFiles)) : List (List String) :=
  match r with
  | .ok (some w) => w.mainRows
  | _ => []

/-- Modelled from the spec (§4.3, glossary), for stating the merger
claims the source has no code for: the base identity of a ticker is the
ticker with trailing underscores stripped and then a trailing location
code `NYC`/`LDN`/`SGP` removed (bare-suffix convention (a)). -/
def specBaseIdentity (t : String) : String :=
  let t : String := ⟨(t.data.reverse.dropWhile (fun c => c == '_')).reverse⟩
  if pyEndsWith t "NYC" || pyEndsWith t "LDN" || pyEndsWith t "SGP" then
    ⟨t.data.take (t.data.length - 3)⟩
  else t

example : specBaseIdentity "KT5NYC" = "KT5" := by rfl
example : specBaseIdentity "KT5" = "KT5" := by rfl
example : specBaseIdentity "EGLX__" = "EGLX" := by rfl

/-- A fixed reference instant for the concrete runs: 2024-01-03 05:00 UTC,
so the staleness cutoff is 2024-01-02 21:00 UTC. -/
def now0 : Timestamp := ⟨2024, 1, 3, 5, 0, 0, 0⟩

/-- An exchange reference response that failed (mappings degrade to `[]`). -/
def exchFail : ExchangeResp := ⟨500, "", []⟩

/-- A failed per-ticker price response (placeholders are used). -/
def priceFail : PriceResp := ⟨500, none, []⟩

/-- A USD-quoted reference-rate item with valid dates and a given ticker. -/
def mkUsdItem (tk : String) : RawItem :=
  ⟨tk, "Reference_Rate", "Kaiko", tk ++ "_Rate", "Real-time", "2023-05-01T00:00:00Z",
   "2021-01-01T00:00:00.000000Z", "usd", "btc"⟩

/-- Run inputs with a successful rates response carrying no items and an
empty prior CSV. -/
def envEmpty : Env := ⟨⟨200, []⟩, [], exchFail, fun _ => priceFail⟩

/-- Run inputs whose API items arrive in the order ZZZ, AAA. -/
def envZA : Env := ⟨⟨200, [mkUsdItem "ZZZ", mkUsdItem "AAA"]⟩, [], exchFail, fun _ => priceFail⟩

/-- Run inputs whose single API item reuses the fixed-catalog ticker KT5. -/
def envKT5 : Env := ⟨⟨200, [mkUsdItem "KT5"]⟩, [], exchFail, fun _ => priceFail⟩

/-- A price response published 2024-01-02 20:00 UTC, one hour before the
cutoff of `now0`. -/
def priceStale : PriceResp := ⟨200, some "2024-01-02T20:00:00.000000Z", []⟩

/-- A price response published 2024-01-02 22:00 UTC, one hour after the
cutoff of `now0`. -/
def priceFresh : PriceResp := ⟨200, some "2024-01-02T22:00:00.000000Z", []⟩

/-- Run inputs with two USD items, ABC whose latest publication is stale
and ABD whose latest publication is fresh. -/
def envStale : Env :=
  ⟨⟨200, [mkUsdItem "ABC", mkUsdItem "ABD"]⟩, [], exchFail,
   fun t => if t == "ABC" then priceStale else priceFresh⟩

/-- Run inputs whose prior CSV carries the factsheet value `X` for the
fixed-catalog ticker KT5. -/
def envPriorKT5 : Env := ⟨⟨200, []⟩, [("KT5", "X")], exchFail, fun _ => priceFail⟩

/-- A USD item whose launch date parses in neither accepted form. -/
def badDateItem : RawItem :=
  ⟨"BAD", "Reference_Rate", "Kaiko", "Bad_Rate", "Real-time", "garbage",
   "2021-01-01T00:00:00Z", "USD", "btc"⟩

/-- Run inputs with one well-formed USD item followed by one with an
unparseable launch date. -/
def envBadDate : Env := ⟨⟨200, [mkUsdItem "AAA", badDateItem]⟩, [], exchFail, fun _ => priceFail⟩

/-- Run inputs whose rates response has HTTP status 500. -/
def envDown : Env := ⟨⟨500, [mkUsdItem "AAA"]⟩, [], exchFail, fun _ => priceFail⟩

theorem mapME_ok_length {α β ε : Type} {xs : List α} {f : α → Except ε β}
    {ys : List β} (h : mapME xs f = .ok ys) : ys.length = xs.length := by
  induction xs generalizing ys with
  | nil =>
    unfold mapME at h
    cases h
    rfl
  | cons x xs ih =>
    unfold mapME at h
    cases hf : f x with
    | error e => rw [hf] at h; cases h
    | ok y =>
      rw [hf] at h
      cases hr : mapME xs f with
      | error e => rw [hr] at h; cases h
      | ok ys' =>
        rw [hr] at h
        cases h
        simp [ih hr]

theorem mapME_error_of_mem {α β ε : Type} {xs : List α} {f : α → Except ε β}
    {x : α} (hmem : x ∈ xs) (hf : ∀ y, f x ≠ .ok y) :
    ∃ e, mapME xs f = .error e := by
  induction xs with
  | nil => cases hmem
  | cons a as ih =>
    unfold mapME
    cases hfa : f a with
    | error e => exact ⟨e, rfl⟩
    | ok y =>
      rcases List.mem_cons.mp hmem with rfl | hmem'
      · exact absurd hfa (hf y)
      · rcases ih hmem' with ⟨e, he⟩
        rw [he]
        exact ⟨e, rfl⟩

theorem pyInsert_length (le : α → α → Bool) (x : α) (l : List α) :
    (pyInsert le x l).length = l.length + 1 := by
  induction l with
  | nil => rfl
  | cons y ys ih =>
    unfold pyInsert
    split <;> simp [ih]

theorem pySorted_length (le : α → α → Bool) (l : List α) :
    (pySorted le l).length = l.length := by
  induction l with
  | nil => rfl
  | cons x xs ih =>
    unfold pySorted
    rw [pyInsert_length, ih]
    rfl

theorem countP_pyInsert (p : α → Bool) (le : α → α → Bool) (x : α) (l : List α) :
    (pyInsert le x l).countP p = (x :: l).countP p := by
  induction l with
  | nil => rfl
  | cons y ys ih =>
    unfold pyInsert
    split
    · rfl
    · simp only [List.countP_cons, ih]
      omega

theorem countP_pySorted (p : α → Bool) (le : α → α → Bool) (l : List α) :
    (pySorted le l).countP p = l.countP p := by
  induction l with
  | nil => rfl
  | cons x xs ih =>
    unfold pySorted
    rw [countP_pyInsert]
    simp only [List.countP_cons, ih]

theorem mem_pyInsert (le : α → α → Bool) (x a : α) (l : List α) :
    a ∈ pyInsert le x l ↔ a = x ∨ a ∈ l := by
  induction l with
  | nil => simp [pyInsert]
  | cons y ys ih =>
    unfold pyInsert
    split
    · simp [or_comm, or_left_comm]
    · simp only [List.mem_cons, ih]
      tauto

theorem pairwise_pyInsert {le : α → α → Bool}
    (htrans : ∀ a b c, le a b = true → le b c = true → le a c = true)
    (htot : ∀ a b, le a b = true ∨ le b a = true)
    (x : α) {l : List α} (hl : l.Pairwise (fun a b => le a b = true)) :
    (pyInsert le x l).Pairwise (fun a b => le a b = true) := by
  induction l with
  | nil => simp [pyInsert]
  | cons y ys ih =>
    rcases List.pairwise_cons.mp hl with ⟨hy, hys⟩
    unfold pyInsert
    split
    · rename_i hxy
      refine List.pairwise_cons.mpr ⟨?_, hl⟩
      intro b hb
      rcases List.mem_cons.mp hb with rfl | hb'
      · exact hxy
      · exact htrans _ _ _ hxy (hy b hb')
    · rename_i hxy
      have hyx : le y x = true := by
        rcases htot x y with h | h
        · exact absurd h hxy
        · exact h
      refine List.pairwise_cons.mpr ⟨?_, ih hys⟩
      intro b hb
      rcases (mem_pyInsert le x b ys).mp hb with rfl | hb'
      · exact hyx
      · exact hy b hb'

theorem pairwise_pySorted {le : α → α → Bool}
    (htrans : ∀ a b c, le a b = true → le b c = true → le a c = true)
    (htot : ∀ a b, le a b = true ∨ le b a = true) (l : List α) :
    (pySorted le l).Pairwise (fun a b => le a b = true) := by
  induction l with
  | nil => exact List.Pairwise.nil
  | cons x xs ih => exact pairwise_pyInsert htrans htot x ih

theorem lexLe_total (a b : List Char) : lexLe a b = true ∨ lexLe b a = true := by
  induction a generalizing b with
  | nil => left; rfl
  | cons c cs ih =>
    cases b with
    | nil => right; rfl
    | cons d ds =>
      unfold lexLe
      by_cases h : c.toNat = d.toNat
      · rw [if_pos h, if_pos h.symm]
        exact ih ds
      · rw [if_neg h, if_neg (Ne.symm h)]
        simp only [decide_eq_true_eq]
        omega

theorem lexLe_trans (a b c : List Char) (h1 : lexLe a b = true)
    (h2 : lexLe b c = true) : lexLe a c = true := by
  induction a generalizing b c with
  | nil => rfl
  | cons x xs ih =>
    cases b with
    | nil => simp [lexLe] at h1
    | cons y ys =>
      cases c with
      | nil => simp [lexLe] at h2
      | cons z zs =>
        unfold lexLe at h1 h2 ⊢
        by_cases hxy : x.toNat = y.toNat <;> by_cases hyz : y.toNat = z.toNat
        · rw [if_pos hxy] at h1
          rw [if_pos hyz] at h2
          rw [if_pos (hxy.trans hyz)]
          exact ih ys zs h1 h2
        · rw [if_pos hxy] at h1
          rw [if_neg hyz] at h2
          simp only [decide_eq_true_eq] at h2
          have hxz : x.toNat ≠ z.toNat := by omega
          rw [if_neg hxz]
          simp only [decide_eq_true_eq]
          omega
        · rw [if_neg hxy] at h1
          simp only [decide_eq_true_eq] at h1
          rw [if_pos hyz] at h2
          have hxz : x.toNat ≠ z.toNat := by omega
          rw [if_neg hxz]
          simp only [decide_eq_true_eq]
          omega
        · rw [if_neg hxy] at h1
          simp only [decide_eq_true_eq] at h1
          rw [if_neg hyz] at h2
          simp only [decide_eq_true_eq] at h2
          have hxz : x.toNat ≠ z.toNat := by omega
          rw [if_neg hxz]
          simp only [decide_eq_true_eq]
          omega

theorem tickerLe_trans (a b c : List String) (h1 : tickerLe a b = true)
    (h2 : tickerLe b c = true) : tickerLe a c = true :=
  lexLe_trans _ _ _ h1 h2

theorem tickerLe_total (a b : List String) :
    tickerLe a b = true ∨ tickerLe b a = true :=
  lexLe_total _ _

theorem run_decomposition (env : Env) (api_key : String) (nowUtc : Timestamp)
    (api : List (List String)) (h200 : env.ratesResp.statusCode = 200)
    (hapi : apiItemsE env api_key nowUtc = .ok api) :
    mainRowsOf (pull_and_save_data_to_csv env api_key nowUtc)
      = (fixed_items_with_fact_sheets (get_existing_fact_sheets env.priorCsv)).filter keepRow
        ++ (pySorted tickerLe api).filter keepRow := by
  unfold pull_and_save_data_to_csv
  rw [if_pos h200, hapi]
  simp only [mainRowsOf, List.filter_append]

/-- The rows the API loop produces for `envZA` (the ZZZ item first,
then the AAA item, in input order). -/
def apiZA : List (List String) :=
  [["Kaiko", "Single-Asset", "ZZZ Rate", "ZZZ", "BTC", "USD", "Real-time",
    "May 01, 2023", "January 01, 2021", "-", "-", ""],
   ["Kaiko", "Single-Asset", "AAA Rate", "AAA", "BTC", "USD", "Real-time",
    "May 01, 2023", "January 01, 2021", "-", "-", ""]]

/-- The single row the API loop produces for `envKT5`. -/
def apiKT5 : List (List String) :=
  [["Kaiko", "Single-Asset", "KT5 Rate", "KT5", "BTC", "USD", "Real-time",
    "May 01, 2023", "January 01, 2021", "-", "-", ""]]

/-- C1, counterexample: the pipeline does not merge location variants.
In a run whose API response is empty, the written output already
contains four rows whose base identity (ticker with location suffix and
trailing underscores stripped) is `KT5` — the fixed catalog lists KT5,
KT5NYC, KT5LDN and KT5SGP as separate rows and nothing merges them — so
the output does not have at most one row per distinct base identity. -/
theorem C1_counterexample :
    ¬ (((mainRowsOf (pull_and_save_data_to_csv envEmpty "" now0)).filter
      (fun r => specBaseIdentity (r.getD 3 "") == "KT5")).length ≤ 1) := by decide

/-- C1, amended: no variant merging happens (location variants each
stay their own row), but the row-count bound does hold: for every run
input, the number of written main-CSV rows is at most the number of
rates-API input rows plus the number of fixed-catalog rows. -/
theorem C1_amended (env : Env) (api_key : String) (nowUtc : Timestamp) :
    (mainRowsOf (pull_and_save_data_to_csv env api_key nowUtc)).length
      ≤ env.ratesResp.data.length + get_fixed_entries.length := by
  by_cases h200 : env.ratesResp.statusCode = 200
  · cases hapi : apiItemsE env api_key nowUtc with
    | error e =>
      unfold pull_and_save_data_to_csv
      rw [if_pos h200, hapi]
      simp [mainRowsOf]
    | ok api =>
      rw [run_decomposition env api_key nowUtc api h200 hapi]
      have h1 : ((fixed_items_with_fact_sheets
          (get_existing_fact_sheets env.priorCsv)).filter keepRow).length
          ≤ get_fixed_entries.length := by
        calc ((fixed_items_with_fact_sheets
              (get_existing_fact_sheets env.priorCsv)).filter keepRow).length
            ≤ (fixed_items_with_fact_sheets
              (get_existing_fact_sheets env.priorCsv)).length :=
              List.length_filter_le _ _
          _ = get_fixed_entries.length := List.length_map _ _
      have h2 : ((pySorted tickerLe api).filter keepRow).length
          ≤ env.ratesResp.data.length := by
        have hlen : api.length = (usdItems env.ratesResp).length :=
          mapME_ok_length hapi
        calc ((pySorted tickerLe api).filter keepRow).length
            ≤ (pySorted tickerLe api).length := List.length_filter_le _ _
          _ = api.length := pySorted_length _ _
          _ = (usdItems env.ratesResp).length := hlen
          _ ≤ env.ratesResp.data.length := List.length_filter_le _ _
      rw [List.length_append]
      omega
  · unfold pull_and_save_data_to_csv
    rw [if_neg h200]
    simp [mainRowsOf]

/-- C2, counterexample: output order is not first-seen input order.
With the API items arriving in the order ZZZ, AAA, the two API-derived
output rows (after the 69 fixed-catalog rows) come out as AAA, ZZZ —
sorted by ticker — not in the first-seen order ZZZ, AAA of the given
input permutation. -/
theorem C2_counterexample :
    ((mainRowsOf (pull_and_save_data_to_csv envZA "" now0)).drop 69).map
      (fun r => r.getD 3 "") = ["AAA", "ZZZ"]
    ∧ (["AAA", "ZZZ"] : List String) ≠ ["ZZZ", "AAA"] :=
  ⟨rfl, by decide⟩

/-- C2, amended: the written rows are the fixed-catalog rows in catalog
order followed by the API-derived rows sorted into nondecreasing
lexicographic ticker order (so the API part's order is
input-permutation-independent, not first-seen order). -/
theorem C2_amended (env : Env) (api_key : String) (nowUtc : Timestamp)
    (api : List (List String)) (h200 : env.ratesResp.statusCode = 200)
    (hapi : apiItemsE env api_key nowUtc = .ok api) :
    mainRowsOf (pull_and_save_data_to_csv env api_key nowUtc)
      = (fixed_items_with_fact_sheets (get_existing_fact_sheets env.priorCsv)).filter
          keepRow
        ++ (pySorted tickerLe api).filter keepRow
    ∧ ((pySorted tickerLe api).filter keepRow).Pairwise
        (fun a b => tickerLe a b = true) :=
  ⟨run_decomposition env api_key nowUtc api h200 hapi,
   List.Pairwise.filter _ (pairwise_pySorted tickerLe_trans tickerLe_total api)⟩

/-- C2, witness: the amended statement instantiated at the concrete run
`envZA`. -/
theorem C2_amended_witness :
    (envZA.ratesResp.statusCode = 200 ∧ apiItemsE envZA "" now0 = Except.ok apiZA)
    ∧ (mainRowsOf (pull_and_save_data_to_csv envZA "" now0)
        = (fixed_items_with_fact_sheets (get_existing_fact_sheets envZA.priorCsv)).filter
            keepRow
          ++ (pySorted tickerLe apiZA).filter keepRow
      ∧ ((pySorted tickerLe apiZA).filter keepRow).Pairwise
          (fun a b => tickerLe a b = true)) :=
  ⟨⟨rfl, rfl⟩, C2_amended envZA "" now0 apiZA rfl rfl⟩

/-- C3, counterexample: no catalog-versus-API ticker deduplication
exists.  With one USD API item whose ticker is the fixed-catalog ticker
KT5, the written output contains two rows with ticker exactly `KT5`. -/
theorem C3_counterexample :
    ¬ ((mainRowsOf (pull_and_save_data_to_csv envKT5 "" now0)).countP
      (fun r => r.getD 3 "" == "KT5") ≤ 1) := by decide

/-- C3, amended: ticker multiplicities add — the written output carries
every surviving fixed-catalog row and every surviving API row, with no
deduplication between them, so the count of rows bearing any ticker `t`
is the sum of the fixed-catalog count and the API count. -/
theorem C3_amended (env : Env) (api_key : String) (nowUtc : Timestamp)
    (api : List (List String)) (t : String)
    (h200 : env.ratesResp.statusCode = 200)
    (hapi : apiItemsE env api_key nowUtc = .ok api) :
    (mainRowsOf (pull_and_save_data_to_csv env api_key nowUtc)).countP
        (fun r => r.getD 3 "" == t)
      = ((fixed_items_with_fact_sheets (get_existing_fact_sheets env.priorCsv)).filter
          keepRow).countP (fun r => r.getD 3 "" == t)
        + (api.filter keepRow).countP (fun r => r.getD 3 "" == t) := by
  rw [run_decomposition env api_key nowUtc api h200 hapi, List.countP_append]
  congr 1
  rw [List.countP_filter, List.countP_filter]
  exact countP_pySorted _ _ _

/-- C3, witness: the amended statement instantiated at the concrete run
`envKT5` and ticker `KT5`. -/
theorem C3_amended_witness :
    (envKT5.ratesResp.statusCode = 200 ∧ apiItemsE envKT5 "" now0 = Except.ok apiKT5)
    ∧ (mainRowsOf (pull_and_save_data_to_csv envKT5 "" now0)).countP
        (fun r => r.getD 3 "" == "KT5")
      = ((fixed_items_with_fact_sheets (get_existing_fact_sheets envKT5.priorCsv)).filter
          keepRow).countP (fun r => r.getD 3 "" == "KT5")
        + (apiKT5.filter keepRow).countP (fun r => r.getD 3 "" == "KT5") :=
  ⟨⟨rfl, rfl⟩, C3_amended envKT5 "" now0 apiKT5 "KT5" rfl rfl⟩

/-- C4, code bug: the staleness mark is computed but never acted on.
With the cutoff at 2024-01-02 21:00 UTC (from `now0`),
`fetch_historical_prices_data` does return the special
`('EXCLUDE', 'EXCLUDE')` pair for ticker ABC published at 20:00 UTC,
but `pull_and_save_data_to_csv` appends the row regardless, so the
written output still contains the ABC row — with the string `EXCLUDE`
in its Exchanges column — instead of dropping it; the fresh row ABD
(published 22:00 UTC) is present with the normal placeholder. -/
theorem C4_code_bug :
    fetch_historical_prices_data "ABC" "Reference_Rate" "k" [] exchFail now0 priceStale
      = ("EXCLUDE", "EXCLUDE")
    ∧ ((mainRowsOf (pull_and_save_data_to_csv envStale "k" now0)).filter
        (fun r => r.getD 3 "" == "ABC")).map (fun r => r.getD 9 "") = ["EXCLUDE"]
    ∧ ((mainRowsOf (pull_and_save_data_to_csv envStale "k" now0)).filter
        (fun r => r.getD 3 "" == "ABD")).map (fun r => r.getD 9 "") = ["-"] :=
  ⟨rfl, rfl, rfl⟩

/-- C5, counterexample: carry-forward does overwrite a non-empty
current-run link.  The fixed-catalog row for KT5 carries its own
factsheet literal (`factsheet_blue_chip`), yet when the prior CSV
supplies the different non-empty value `X` for KT5, the written KT5 row
carries `X`, not the catalog literal. -/
theorem C5_counterexample :
    ((mainRowsOf (pull_and_save_data_to_csv envPriorKT5 "" now0)).filter
      (fun r => r.getD 3 "" == "KT5")).map (fun r => r.getD 11 "") = ["X"]
    ∧ (get_fixed_entries.getD 2 []).getD 3 "" = "KT5"
    ∧ (get_fixed_entries.getD 2 []).getD 11 "" = factsheet_blue_chip
    ∧ "X" ≠ factsheet_blue_chip :=
  ⟨rfl, rfl, rfl, by decide⟩

theorem getD_map_of_lt {α β : Type} (f : α → β) (d : α) (d' : β) :
    ∀ (l : List α) (i : Nat), i < l.length → (l.map f).getD i d' = f (l.getD i d)
  | _ :: _, 0, _ => rfl
  | x :: xs, i + 1, h => getD_map_of_lt f d d' xs i (Nat.lt_of_succ_lt_succ h)
  | [], i, h => absurd h (by simp)

/-- C5, amended: carry-forward precedence is prior-run-wins for every
fixed-catalog row — the row emitted at each catalog position is the
catalog entry's first eleven columns with its factsheet replaced by the
prior run's value (one trailing comma stripped) whenever the prior run
supplies a nonempty value for that entry's ticker, and the entry's own
literal exactly when the prior run supplies nothing (or an empty value);
and an API row never carries a current-run link of its own — its emitted
factsheet is exactly the prior-run value for its ticker (one trailing
comma stripped) or empty. -/
theorem C5_amended (existing : List (String × String)) :
    (∀ i, i < get_fixed_entries.length →
      (∀ v, dictGet? existing ((get_fixed_entries.getD i []).getD 3 "") = some v →
          v ≠ "" →
          (fixed_items_with_fact_sheets existing).getD i []
            = (get_fixed_entries.getD i []).take 11
              ++ [if pyEndsWith v "," then pyDropLast v else v])
      ∧ ((dictGet? existing ((get_fixed_entries.getD i []).getD 3 "") = none
            ∨ dictGet? existing ((get_fixed_entries.getD i []).getD 3 "") = some "") →
          (fixed_items_with_fact_sheets existing).getD i []
            = (get_fixed_entries.getD i []).take 11
              ++ [(get_fixed_entries.getD i []).getD 11 ""]))
    ∧ (∀ (exchange_mappings : List (String × String)) (exchangeResp : ExchangeResp)
        (priceResp : String → PriceResp) (api_key : String) (nowUtc : Timestamp)
        (item : RawItem) (row : List String),
        processApiItem existing exchange_mappings exchangeResp priceResp api_key
            nowUtc item = .ok row →
        row.getD 11 ""
          = if pyEndsWith ((dictGet? existing item.ticker).getD "") ","
            then pyDropLast ((dictGet? existing item.ticker).getD "")
            else (dictGet? existing item.ticker).getD "") := by
  constructor
  · intro i hi
    constructor
    · intro v hv hne
      unfold fixed_items_with_fact_sheets
      rw [getD_map_of_lt _ ([] : List String) ([] : List String) get_fixed_entries i hi]
      simp only [hv, if_pos hne]
    · intro hcase
      unfold fixed_items_with_fact_sheets
      rw [getD_map_of_lt _ ([] : List String) ([] : List String) get_fixed_entries i hi]
      rcases hcase with hc | hc
      · simp only [hc]
      · simp only [hc]
        simp
  · intro exchange_mappings exchangeResp priceResp api_key nowUtc item row h
    cases hl : parse_date item.launchDate with
    | none => simp [processApiItem, hl] at h
    | some launch_date =>
      cases hi2 : parse_date item.inceptionDate with
      | none => simp [processApiItem, hl, hi2] at h
      | some inception =>
        simp only [processApiItem, hl, hi2, Except.ok.injEq] at h
        subst h
        rfl

/-- C5, witness: the amended statement at the concrete prior CSV that
maps KT5 to `X,`: the KT5 catalog row (position 2) takes the stripped
prior value, the EGLX row (position 0, absent from the prior CSV) keeps
its own literal, and the API row for ticker KT5 gets the stripped prior
value as its factsheet. -/
theorem C5_amended_witness :
    ((fixed_items_with_fact_sheets [("KT5", "X,")]).getD 2 []
      = (get_fixed_entries.getD 2 []).take 11
        ++ [if pyEndsWith "X," "," then pyDropLast "X," else "X,"])
    ∧ ((fixed_items_with_fact_sheets [("KT5", "X,")]).getD 0 []
      = (get_fixed_entries.getD 0 []).take 11
        ++ [(get_fixed_entries.getD 0 []).getD 11 ""])
    ∧ (["Kaiko", "Single-Asset", "KT5 Rate", "KT5", "BTC", "USD", "Real-time",
        "May 01, 2023", "January 01, 2021", "-", "-", "X"].getD 11 ""
      = if pyEndsWith ((dictGet? [("KT5", "X,")] "KT5").getD "") ","
        then pyDropLast ((dictGet? [("KT5", "X,")] "KT5").getD "")
        else (dictGet? [("KT5", "X,")] "KT5").getD "") :=
  ⟨((C5_amended [("KT5", "X,")]).1 2 (by decide)).1 "X," rfl (by decide),
   ((C5_amended [("KT5", "X,")]).1 0 (by decide)).2 (Or.inl rfl),
   (C5_amended [("KT5", "X,")]).2 [] exchFail (fun _ => priceFail) "" now0
     (mkUsdItem "KT5")
     ["Kaiko", "Single-Asset", "KT5 Rate", "KT5", "BTC", "USD", "Real-time",
      "May 01, 2023", "January 01, 2021", "-", "-", "X"] rfl⟩

/-- C6, counterexample: the carry-forward normalization is not
idempotent on links with more than two nested opening tags.  On a value
with three consecutive `<a href="` tags, one application of the prior-CSV
normalization (`get_existing_fact_sheets`) collapses only one pair —
Python's `str.replace` consumes non-overlapping occurrences — leaving a
doubled tag that a second application collapses further, so applying the
transformation twice differs from applying it once. -/
theorem C6_counterexample :
    get_existing_fact_sheets (get_existing_fact_sheets
        [("T", "<a href=\"<a href=\"<a href=\"u\">View</a>")])
      ≠ get_existing_fact_sheets
        [("T", "<a href=\"<a href=\"<a href=\"u\">View</a>")] := by decide

/-- The per-row step of `get_existing_fact_sheets`, named so the fold
can be reasoned about; `gefs_eq_foldl` checks it is definitionally the
same function. -/
def carryStep (fact_sheets : List (String × String)) (row : String × String) :
    List (String × String) :=
  let value := pyStrip row.2
  let value := if pyEndsWith value "," then pyDropLast value else value
  if value ≠ "" then
    let value :=
      if pyContains value doubleHref then pyReplace value doubleHref singleHref
      else value
    dictInsert fact_sheets row.1 value
  else fact_sheets

theorem gefs_eq_foldl (rows : List (String × String)) :
    get_existing_fact_sheets rows = rows.foldl carryStep [] := rfl

theorem mem_dictInsert (l : List (String × String)) (k v : String)
    (p : String × String) (h : p ∈ dictInsert l k v) : p = (k, v) ∨ p ∈ l := by
  induction l with
  | nil =>
    unfold dictInsert at h
    simp only [List.mem_singleton] at h
    exact Or.inl h
  | cons q rest ih =>
    obtain ⟨k', v'⟩ := q
    unfold dictInsert at h
    by_cases hk : (k' == k) = true
    · rw [if_pos hk] at h
      rcases List.mem_cons.mp h with rfl | h'
      · exact Or.inl rfl
      · exact Or.inr (List.mem_cons_of_mem _ h')
    · rw [if_neg hk] at h
      rcases List.mem_cons.mp h with rfl | h'
      · exact Or.inr (List.mem_cons_self _ _)
      · rcases ih h' with h'' | h''
        · exact Or.inl h''
        · exact Or.inr (List.mem_cons_of_mem _ h'')

theorem map_fst_dictInsert (l : List (String × String)) (k v : String) :
    (dictInsert l k v).map Prod.fst
      = if k ∈ l.map Prod.fst then l.map Prod.fst else l.map Prod.fst ++ [k] := by
  induction l with
  | nil => simp [dictInsert]
  | cons q rest ih =>
    obtain ⟨k', v'⟩ := q
    unfold dictInsert
    by_cases hk : (k' == k) = true
    · rw [if_pos hk]
      have hkk : k' = k := by simpa using hk
      subst hkk
      simp
    · rw [if_neg hk]
      have hne : k ≠ k' := by
        intro e
        exact hk (by simp [e])
      simp only [List.map_cons, ih]
      by_cases hmem : k ∈ rest.map Prod.fst
      · rw [if_pos hmem, if_pos (List.mem_cons_of_mem _ hmem)]
      · rw [if_neg hmem, if_neg (by simp [hne, hmem])]
        simp

theorem dictInsert_of_not_mem (l : List (String × String)) (k v : String)
    (h : k ∉ l.map Prod.fst) : dictInsert l k v = l ++ [(k, v)] := by
  induction l with
  | nil => rfl
  | cons q rest ih =>
    obtain ⟨k', v'⟩ := q
    simp only [List.map_cons, List.mem_cons] at h
    unfold dictInsert
    rw [if_neg (fun hk => h (Or.inl (beq_iff_eq.mp hk).symm))]
    rw [ih (fun hm => h (Or.inr hm))]
    rfl

theorem replaceList_ne_nil (pat rep : List Char) (hrep : rep ≠ [])
    (fuel : Nat) (l : List Char) (hl : l ≠ []) :
    replaceList pat rep fuel l ≠ [] := by
  cases l with
  | nil => exact absurd rfl hl
  | cons c cs =>
    cases fuel with
    | zero => exact hl
    | succ n =>
      unfold replaceList
      split
      · intro hc
        exact hrep (List.append_eq_nil.mp hc).1
      · exact List.cons_ne_nil _ _

theorem pyReplace_ne_empty (s pat rep : String) (hrep : rep ≠ "") (hs : s ≠ "") :
    pyReplace s pat rep ≠ "" := by
  have hrd : rep.data ≠ [] := by
    intro hd
    apply hrep
    cases rep with
    | mk rd => exact congrArg String.mk hd
  have hsd : s.data ≠ [] := by
    intro hd
    apply hs
    cases s with
    | mk sd => exact congrArg String.mk hd
  intro hc
  exact replaceList_ne_nil pat.data rep.data hrd s.data.length s.data hsd
    (congrArg String.data hc)

theorem carryStep_cases (acc : List (String × String)) (row : String × String) :
    carryStep acc row = acc
    ∨ ∃ k v, v ≠ "" ∧ carryStep acc row = dictInsert acc k v := by
  have hbody : carryStep acc row
      = if (if pyEndsWith (pyStrip row.2) "," then pyDropLast (pyStrip row.2)
            else pyStrip row.2) ≠ ""
        then dictInsert acc row.1
          (if pyContains (if pyEndsWith (pyStrip row.2) ","
                then pyDropLast (pyStrip row.2) else pyStrip row.2) doubleHref
           then pyReplace (if pyEndsWith (pyStrip row.2) ","
                then pyDropLast (pyStrip row.2) else pyStrip row.2)
                doubleHref singleHref
           else (if pyEndsWith (pyStrip row.2) ","
                then pyDropLast (pyStrip row.2) else pyStrip row.2))
        else acc := rfl
  set x := if pyEndsWith (pyStrip row.2) "," then pyDropLast (pyStrip row.2)
    else pyStrip row.2 with hx
  by_cases hv : x ≠ ""
  · right
    refine ⟨row.1,
      if pyContains x doubleHref then pyReplace x doubleHref singleHref else x,
      ?_, ?_⟩
    · by_cases hc : pyContains x doubleHref = true
      · rw [if_pos hc]
        exact pyReplace_ne_empty _ _ _ (by decide) hv
      · rw [if_neg hc]
        exact hv
    · rw [hbody, if_pos hv]
  · left
    rw [hbody, if_neg hv]

theorem foldl_carryStep_preserve :
    ∀ (rows acc : List (String × String)),
      (∀ p ∈ acc, p.2 ≠ "") → (acc.map Prod.fst).Nodup →
      (∀ p ∈ rows.foldl carryStep acc, p.2 ≠ "")
        ∧ ((rows.foldl carryStep acc).map Prod.fst).Nodup := by
  intro rows
  induction rows with
  | nil => exact fun acc h1 h2 => ⟨h1, h2⟩
  | cons r rest ih =>
    intro acc h1 h2
    simp only [List.foldl_cons]
    rcases carryStep_cases acc r with heq | ⟨k, v, hv, heq⟩
    · rw [heq]
      exact ih acc h1 h2
    · rw [heq]
      apply ih
      · intro p hp
        rcases mem_dictInsert acc k v p hp with rfl | hp'
        · exact hv
        · exact h1 p hp'
      · rw [map_fst_dictInsert]
        split
        · exact h2
        · rename_i hk
          rw [List.nodup_append]
          refine ⟨h2, List.nodup_singleton _, ?_⟩
          intro a ha hb
          rw [List.mem_singleton] at hb
          subst hb
          exact hk ha

theorem gefs_invariants (rows : List (String × String)) :
    (∀ p ∈ get_existing_fact_sheets rows, p.2 ≠ "")
    ∧ ((get_existing_fact_sheets rows).map Prod.fst).Nodup := by
  rw [gefs_eq_foldl]
  exact foldl_carryStep_preserve rows [] (by simp) (by simp)

theorem carryStep_eq_of_normal (acc : List (String × String)) (p : String × String)
    (h1 : pyStrip p.2 = p.2) (h2 : pyEndsWith p.2 "," = false)
    (h3 : pyContains p.2 doubleHref = false) (h4 : p.2 ≠ "") :
    carryStep acc p = dictInsert acc p.1 p.2 := by
  unfold carryStep
  simp [h1, h2, h3, h4]

theorem foldl_carryStep_rebuild :
    ∀ (l acc : List (String × String)),
      (∀ p ∈ l, pyStrip p.2 = p.2 ∧ pyEndsWith p.2 "," = false
        ∧ pyContains p.2 doubleHref = false ∧ p.2 ≠ "") →
      (∀ k ∈ l.map Prod.fst, k ∉ acc.map Prod.fst) →
      (l.map Prod.fst).Nodup →
      l.foldl carryStep acc = acc ++ l := by
  intro l
  induction l with
  | nil =>
    intro acc _ _ _
    simp
  | cons p rest ih =>
    intro acc hnorm hdisj hnd
    obtain ⟨h1, h2, h3, h4⟩ := hnorm p (List.mem_cons_self _ _)
    have hnd0 : p.1 ∉ rest.map Prod.fst ∧ (rest.map Prod.fst).Nodup := by
      simpa [List.nodup_cons] using hnd
    have hrest : ∀ q ∈ rest, pyStrip q.2 = q.2 ∧ pyEndsWith q.2 "," = false
        ∧ pyContains q.2 doubleHref = false ∧ q.2 ≠ "" :=
      fun q hq => hnorm q (List.mem_cons_of_mem _ hq)
    have hdisj' : ∀ k ∈ rest.map Prod.fst, k ∉ (acc ++ [(p.1, p.2)]).map Prod.fst := by
      intro k hk
      simp only [List.map_append, List.mem_append]
      rintro (hka | hkp)
      · exact hdisj k (List.mem_cons_of_mem _ hk) hka
      · simp only [List.map_cons, List.map_nil, List.mem_singleton] at hkp
        exact hnd0.1 (hkp ▸ hk)
    simp only [List.foldl_cons]
    rw [carryStep_eq_of_normal acc p h1 h2 h3 h4]
    rw [dictInsert_of_not_mem acc p.1 p.2 (hdisj p.1 (by simp))]
    rw [ih (acc ++ [(p.1, p.2)]) hrest hdisj' hnd0.2]
    simp

theorem gefs_of_normal (l : List (String × String))
    (hl : ∀ p ∈ l, pyStrip p.2 = p.2 ∧ pyEndsWith p.2 "," = false
      ∧ pyContains p.2 doubleHref = false ∧ p.2 ≠ "")
    (hnd : (l.map Prod.fst).Nodup) :
    get_existing_fact_sheets l = l := by
  rw [gefs_eq_foldl]
  rw [foldl_carryStep_rebuild l [] hl (by simp) hnd]
  rfl

/-- C6, amended: Metadata Carry-Forward is idempotent on every prior
input whose link values are fully normalized by one application, that
is, every stored value is whitespace-trim-stable, has no trailing comma
left, and contains no remaining doubled `<a href="` tag — which is the
case exactly when the input values carry at most two consecutive
opening tags and at most one trailing comma (with no whitespace hidden
behind it).  With three or more nested opening tags the one
non-overlapping replace pass leaves a doubled tag and a trailing comma
can guard whitespace, so outside this class a second application still
changes the output. -/
theorem C6_amended (prior : List (String × String))
    (h : ∀ p ∈ get_existing_fact_sheets prior,
      pyStrip p.2 = p.2 ∧ pyEndsWith p.2 "," = false
        ∧ pyContains p.2 doubleHref = false) :
    get_existing_fact_sheets (get_existing_fact_sheets prior)
      = get_existing_fact_sheets prior := by
  obtain ⟨hne, hnd⟩ := gefs_invariants prior
  exact gefs_of_normal _
    (fun p hp => ⟨(h p hp).1, (h p hp).2.1, (h p hp).2.2, hne p hp⟩) hnd

/-- C6, witness: the amended statement at a concrete prior CSV whose
values carry a doubled opening tag and single trailing commas — one
application normalizes them and a second application is the
identity. -/
theorem C6_amended_witness :
    (∀ p ∈ get_existing_fact_sheets
        [("T", "<a href=\"<a href=\"u\">View</a>,"), ("U", "plain,")],
      pyStrip p.2 = p.2 ∧ pyEndsWith p.2 "," = false
        ∧ pyContains p.2 doubleHref = false)
    ∧ get_existing_fact_sheets (get_existing_fact_sheets
        [("T", "<a href=\"<a href=\"u\">View</a>,"), ("U", "plain,")])
      = get_existing_fact_sheets
        [("T", "<a href=\"<a href=\"u\">View</a>,"), ("U", "plain,")] :=
  ⟨by decide, C6_amended _ (by decide)⟩

theorem processApiItem_ne_ok (existing_fact_sheets exchange_mappings : List (String × String))
    (exchangeResp : ExchangeResp) (priceResp : String → PriceResp)
    (api_key : String) (nowUtc : Timestamp) (item : RawItem)
    (hbad : parse_date item.launchDate = none ∨ parse_date item.inceptionDate = none) :
    ∀ y, processApiItem existing_fact_sheets exchange_mappings exchangeResp priceResp
      api_key nowUtc item ≠ .ok y := by
  intro y
  unfold processApiItem
  rcases hbad with h | h
  · rw [h]
    simp
  · cases hl : parse_date item.launchDate with
    | none => simp
    | some d =>
      rw [h]
      simp

/-- C7, counterexample: one unparseable date kills the whole run.  With
a well-formed USD item followed by one whose launch date is `garbage`
(parseable in neither accepted form), the run aborts with the uncaught
error and writes nothing — the well-formed record produces no output
either, so the offending record is not dropped individually and the run
does not continue. -/
theorem C7_counterexample :
    pull_and_save_data_to_csv envBadDate "" now0 = Except.error "garbage"
    ∧ mainRowsOf (pull_and_save_data_to_csv envBadDate "" now0) = [] :=
  ⟨rfl, rfl⟩

/-- C7, amended: whenever any USD-quoted item's launch or inception
timestamp parses in neither accepted form, the whole run aborts with an
uncaught error and no output rows are written (there is no per-record
drop-and-continue path). -/
theorem C7_amended (env : Env) (api_key : String) (nowUtc : Timestamp)
    (item : RawItem) (h200 : env.ratesResp.statusCode = 200)
    (hmem : item ∈ usdItems env.ratesResp)
    (hbad : parse_date item.launchDate = none ∨ parse_date item.inceptionDate = none) :
    ∃ e, pull_and_save_data_to_csv env api_key nowUtc = Except.error e
      ∧ mainRowsOf (pull_and_save_data_to_csv env api_key nowUtc) = [] := by
  obtain ⟨e, he⟩ := mapME_error_of_mem hmem
    (processApiItem_ne_ok (get_existing_fact_sheets env.priorCsv)
      (get_exchange_name_mappings env.exchangeResp) env.exchangeResp
      env.priceResp api_key nowUtc item hbad)
  have happi : apiItemsE env api_key nowUtc = .error e := he
  have hrun : pull_and_save_data_to_csv env api_key nowUtc = Except.error e := by
    unfold pull_and_save_data_to_csv
    rw [if_pos h200, happi]
  exact ⟨e, hrun, by rw [hrun]; rfl⟩

/-- C7, witness: the amended statement at the concrete run
`envBadDate`. -/
theorem C7_amended_witness :
    (envBadDate.ratesResp.statusCode = 200
      ∧ badDateItem ∈ usdItems envBadDate.ratesResp
      ∧ parse_date badDateItem.launchDate = none)
    ∧ ∃ e, pull_and_save_data_to_csv envBadDate "" now0 = Except.error e
        ∧ mainRowsOf (pull_and_save_data_to_csv envBadDate "" now0) = [] :=
  ⟨⟨rfl, by decide, rfl⟩,
   C7_amended envBadDate "" now0 badDateItem rfl (by decide) (Or.inl rfl)⟩

/-- C8, counterexample: the family classifier is neither case- nor
spacing-insensitive and does not normalize unknown codes.  The raw code
`thematic` (which contains `Thematic` case-insensitively) passes through
unchanged instead of mapping to `Sector & Thematic`, and the unknown
code `Custom_Type` is returned verbatim, not with its underscore turned
into a space. -/
theorem C8_counterexample :
    get_normalized_family "thematic" = "thematic"
    ∧ "thematic" ≠ "Sector & Thematic"
    ∧ get_normalized_family "Custom_Type" = "Custom_Type"
    ∧ "Custom_Type" ≠ "Custom Type" :=
  ⟨rfl, by decide, rfl, by decide⟩

/-- C8, amended: the classifier matches the five raw codes exactly and
case-sensitively — `Thematic` and `Sector` map to `Sector & Thematic`;
`Custom_Rate`, `Benchmark_Reference_Rate` and `Reference_Rate` map to
`Single-Asset` — and every other code is returned verbatim, with no
normalization and no error path. -/
theorem C8_amended :
    get_normalized_family "Thematic" = "Sector & Thematic"
    ∧ get_normalized_family "Sector" = "Sector & Thematic"
    ∧ get_normalized_family "Custom_Rate" = "Single-Asset"
    ∧ get_normalized_family "Benchmark_Reference_Rate" = "Single-Asset"
    ∧ get_normalized_family "Reference_Rate" = "Single-Asset"
    ∧ ∀ s : String, s ∉ (["Thematic", "Sector"] : List String) →
        s ∉ (["Custom_Rate", "Benchmark_Reference_Rate", "Reference_Rate"] : List String) →
        get_normalized_family s = s := by
  refine ⟨rfl, rfl, rfl, rfl, rfl, ?_⟩
  intro s h1 h2
  unfold get_normalized_family
  rw [if_neg h1, if_neg h2]

/-- C8, witness: the pass-through clause of the amended statement at the
unknown code `thematic`. -/
theorem C8_amended_witness : get_normalized_family "thematic" = "thematic" :=
  C8_amended.2.2.2.2.2 "thematic" (by decide) (by decide)

/-- C9, confirmed: a non-200 rates-API status makes the run return
through the logging branch with nothing written — no main CSV, no
factsheet CSV, and no error escape, so no partial file can exist. -/
theorem C9_confirmed (env : Env) (api_key : String) (nowUtc : Timestamp)
    (h : env.ratesResp.statusCode ≠ 200) :
    pull_and_save_data_to_csv env api_key nowUtc = Except.ok none := by
  unfold pull_and_save_data_to_csv
  rw [if_neg h]

/-- C9, witness: the statement at a concrete run whose rates response
has status 500. -/
theorem C9_confirmed_witness :
    envDown.ratesResp.statusCode ≠ 200
    ∧ pull_and_save_data_to_csv envDown "" now0 = Except.ok none :=
  ⟨by decide, C9_confirmed envDown "" now0 (by decide)⟩

/-- C10, code bug: the factsheet CSV keeps the Exchanges column.  The
source comments say the filtered file excludes the Exchanges and
Calculation Window columns, but `headers[:10] + [headers[-1]]` keeps
index 9 (Exchanges) and removes only Calculation Window, for the header
row and every data row alike. -/
theorem C10_code_bug :
    (write_filtered_csv [get_fixed_entries.getD 0 []] headersList).1
      = ["Brand", "Benchmark Family", "Name", "Ticker", "Base", "Quote",
         "Dissemination", "Launch Date", "Inception Date", "Exchanges", "Factsheet"]
    ∧ "Exchanges" ∈ (write_filtered_csv [get_fixed_entries.getD 0 []] headersList).1
    ∧ "Calculation Window" ∉ (write_filtered_csv [get_fixed_entries.getD 0 []] headersList).1
    ∧ (write_filtered_csv [get_fixed_entries.getD 0 []] headersList).2
      = [(get_fixed_entries.getD 0 []).take 10 ++ [factsheet_blue_chip]] :=
  ⟨rfl, by decide, by decide, rfl⟩
